import Mathlib

/-
  Verification of the code-validator pipeline in src/tools.py:
  the feature extractor (code_parser.analyze_file together with
  preprocess_databricks_notebook), the per-file aggregation loop of
  code_parser, and the validation engine (code_validator).
-/

namespace Tools

/-- One entry of the data_operations dict built by analyze_file:
the dict value assigned at tools.py lines 259-262. -/
structure Occurrence where
  line_number : Nat
  arguments : List String
deriving DecidableEq, Repr

/-- One entry of the data_quality_checks list or of the
performance_metrics optimization_hints list (tools.py lines 266-270
and 274-278): a dict with keys type, line_number, arguments. -/
structure CheckEntry where
  type : String
  line_number : Nat
  arguments : List String
deriving DecidableEq, Repr

/-- One entry of the transformations list (tools.py lines 289-294). -/
structure Transformation where
  type : String
  line_number : Nat
  target : String
  arguments : List String
deriving DecidableEq, Repr

/-- The performance_metrics sub-dict of an analysis record
(tools.py lines 228-232). -/
structure PerformanceMetrics where
  partitioning : Bool
  caching : Bool
  optimization_hints : List CheckEntry
deriving DecidableEq, Repr

/-- The patterns sub-dict of an analysis record
(tools.py lines 233-240). -/
structure Patterns where
  has_data_validation : Bool
  has_error_handling : Bool
  has_logging : Bool
  has_data_quality_checks : Bool
  has_performance_optimizations : Bool
  has_documentation : Bool
deriving DecidableEq, Repr

/-- The per-file analysis record returned by analyze_file
(tools.py lines 223-241).  The data_operations Python dict is
modelled as an association list with distinct keys kept in
insertion order, matching CPython dict semantics. -/
structure FileAnalysis where
  data_operations : List (String × Occurrence)
  transformations : List Transformation
  dependencies : List String
  data_quality_checks : List CheckEntry
  performance_metrics : PerformanceMetrics
  patterns : Patterns
deriving DecidableEq, Repr

/-- The record with every collection empty and every flag false,
returned verbatim at tools.py lines 202-220 for input that is empty
after preprocessing, and also the initial value of the analysis dict
at lines 223-241. -/
def emptyAnalysis : FileAnalysis :=
  { data_operations := []
    transformations := []
    dependencies := []
    data_quality_checks := []
    performance_metrics :=
      { partitioning := false, caching := false, optimization_hints := [] }
    patterns :=
      { has_data_validation := false
        has_error_handling := false
        has_logging := false
        has_data_quality_checks := false
        has_performance_optimizations := false
        has_documentation := false } }

/-- A Python AST node as visited by ast.walk, restricted to the node
shapes that analyze_file branches on.  A call expression whose func is
an attribute access carries the attribute name; a call whose func has
no attr is modelled with funcAttr = none.  An assignment (Assign or
AnnAssign) whose value is a call with an attribute func is modelled by
assignCall, carrying the line number of the assignment node, the
unparsed target text and the unparsed argument texts of the value
call.  Any node shape the source never branches on is modelled by
other.  Note that ast.walk yields every descendant, so in a walk list
modelling a real Python module the value call of an assignment also
appears as its own call node. -/
inductive PyNode where
  | call (funcAttr : Option String) (lineno : Nat) (args : List String)
  | assignCall (funcAttr : Option String) (lineno : Nat) (targetText : String) (args : List String)
  | tryStmt
  | importStmt (names : List String)
  | importFrom (module : Option String) (names : List String)
  | other
deriving DecidableEq, Repr

/-- A parsed Python module: the node sequence produced by ast.walk
(breadth-first), plus the module docstring as returned by
ast.get_docstring (none when absent). -/
structure PyModule where
  walk : List PyNode
  docstring : Option String
deriving DecidableEq, Repr

/-- Python dict assignment d[k] = v on an association list with
distinct keys: replaces the value in place when the key is present,
otherwise appends the new binding at the end. -/
def dictInsert {α : Type} (d : List (String × α)) (k : String) (v : α) :
    List (String × α) :=
  match d with
  | [] => [(k, v)]
  | (k2, v2) :: rest =>
    if k2 = k then (k, v) :: rest else (k2, v2) :: dictInsert rest k v

/-- Python dict lookup d.get(k) on an association list. -/
def dictLookup {α : Type} (d : List (String × α)) (k : String) : Option α :=
  match d with
  | [] => none
  | (k2, v2) :: rest => if k2 = k then some v2 else dictLookup rest k

/-- The data-operation attribute names of tools.py line 258. -/
def dataOpAttrs : List String :=
  ["read", "write", "createOrReplaceTempView", "cache", "persist"]

/-- The data-quality-check attribute names of tools.py line 265. -/
def qualityAttrs : List String :=
  ["filter", "dropna", "fillna", "isNotNull"]

/-- The performance-optimization attribute names of tools.py line 273. -/
def perfAttrs : List String :=
  ["repartition", "coalesce", "cache", "persist"]

/-- The transformation attribute names of tools.py line 288. -/
def transformAttrs : List String :=
  ["select", "withColumn", "groupBy", "agg", "join"]

/-- The logging attribute names of tools.py line 303. -/
def loggingAttrs : List String :=
  ["info", "error", "warning", "debug"]

/-- One step of the walk loop at tools.py lines 254-294: classifies a
call node by its trailing attribute name into the data-operations
dict, the data-quality-checks list and the optimization-hints list
(three independent membership tests), and records an assignment whose
value is a call with a transformation attribute. -/
def processDataNode (a : FileAnalysis) (n : PyNode) : FileAnalysis :=
  match n with
  | .call (some attr) line args =>
    let a1 :=
      if attr ∈ dataOpAttrs then
        { a with data_operations :=
            dictInsert a.data_operations attr ⟨line, args⟩ }
      else a
    let a2 :=
      if attr ∈ qualityAttrs then
        { a1 with data_quality_checks := a1.data_quality_checks ++
            [(⟨attr, line, args⟩ : CheckEntry)] }
      else a1
    if attr ∈ perfAttrs then
      let pm := { a2.performance_metrics with optimization_hints :=
          a2.performance_metrics.optimization_hints ++
            [(⟨attr, line, args⟩ : CheckEntry)] }
      let pm :=
        if attr = "cache" ∨ attr = "persist" then { pm with caching := true }
        else { pm with partitioning := true }
      { a2 with performance_metrics := pm }
    else a2
  | .assignCall (some attr) line target args =>
    if attr ∈ transformAttrs then
      { a with transformations := a.transformations ++
          [(⟨attr, line, target, args⟩ : Transformation)] }
    else a
  | _ => a

/-- The dependency names contributed by one node in the import walk at
tools.py lines 244-251. -/
def depsOf (n : PyNode) : List String :=
  match n with
  | .importStmt names => names
  | .importFrom (some m) names => names.map (fun s => m ++ "." ++ s)
  | .importFrom none names => names
  | _ => []

/-- Whether a walked node is a try statement (tools.py line 299). -/
def isTryNode (n : PyNode) : Bool :=
  match n with
  | .tryStmt => true
  | _ => false

/-- Whether a walked node is a call whose trailing attribute is one of
the log-level names (tools.py lines 300-305). -/
def isLoggingCall (n : PyNode) : Bool :=
  match n with
  | .call (some attr) _ _ => decide (attr ∈ loggingAttrs)
  | _ => false

/-- The body of analyze_file after a successful parse (tools.py lines
222-308): the import walk, the data-operation walk and the final
pattern-flag updates.  The flag has_data_quality_checks is set in the
initial dict and never updated afterwards. -/
def analyzeTree (tree : PyModule) : FileAnalysis :=
  let a0 := { emptyAnalysis with
      dependencies := tree.walk.foldl (fun d n => d ++ depsOf n) [] }
  let a := tree.walk.foldl processDataNode a0
  { a with patterns :=
      { has_data_validation := decide (0 < a.data_quality_checks.length)
        has_performance_optimizations :=
          decide (0 < a.performance_metrics.optimization_hints.length)
        has_error_handling := tree.walk.any isTryNode
        has_logging := tree.walk.any isLoggingCall
        has_data_quality_checks := false
        has_documentation :=
          match tree.docstring with
          | some s => !s.isEmpty
          | none => false } }

/-- The whitespace characters stripped by the Python built-in
str.strip with no argument. -/
def isPySpace (c : Char) : Bool :=
  c == ' ' || c == '\t' || c == '\n' || c == '\r' || c == '\x0b' || c == '\x0c'

/-- The Python built-in str.strip on a character list: drop leading
and trailing whitespace. -/
def pyStripChars (cs : List Char) : List Char :=
  ((cs.dropWhile isPySpace).reverse.dropWhile isPySpace).reverse

/-- The Python built-in str.strip. -/
def pyStrip (s : String) : String := ⟨pyStripChars s.data⟩

/-- Whether the first list is a leading segment of the second. -/
def leadsWith : List Char → List Char → Bool
  | [], _ => true
  | _ :: _, [] => false
  | p :: ps, c :: cs => p == c && leadsWith ps cs

/-- The Python built-in s.startswith(p). -/
def pyStartsWith (s p : String) : Bool := leadsWith p.data s.data

/-- The Python slice s[n:]. -/
def pyDrop (n : Nat) (s : String) : String := ⟨s.data.drop n⟩

/-- The Python built-in split on a newline separator, on character
lists: always returns at least one (possibly empty) line. -/
def splitLinesChars : List Char → List (List Char)
  | [] => [[]]
  | c :: rest =>
    match splitLinesChars rest with
    | [] => [[]]
    | l :: ls => if c == '\n' then [] :: l :: ls else (c :: l) :: ls

/-- The Python built-in content.split on a newline separator. -/
def pySplitLines (s : String) : List String :=
  (splitLinesChars s.data).map (fun cs => (⟨cs⟩ : String))

/-- The character list of the given lines joined with newlines. -/
def joinLinesChars : List String → List Char
  | [] => []
  | [s] => s.data
  | s :: rest => s.data ++ '\n' :: joinLinesChars rest

/-- The Python built-in join with a newline separator. -/
def pyJoinLines (ls : List String) : String := ⟨joinLinesChars ls⟩

/-- State of the line loop of preprocess_databricks_notebook
(tools.py lines 141-144). -/
structure PreprocState where
  processed_lines : List String
  in_code_cell : Bool
  in_markdown : Bool
deriving DecidableEq, Repr

/-- One iteration of the line loop of preprocess_databricks_notebook
(tools.py lines 146-188), in the exact branch order of the source. -/
def preprocessLine (st : PreprocState) (line : String) : PreprocState :=
  let s := pyStrip line
  if s = "" then st
  else if pyStartsWith s "# In[" || pyStartsWith s "# Out[" then
    { st with in_code_cell := true, in_markdown := false }
  else if pyStartsWith s "# %% [markdown]" then
    { st with in_code_cell := false, in_markdown := true }
  else if st.in_markdown then st
  else if pyStartsWith s "%" then
    if pyStartsWith s "%run" || pyStartsWith s "%md" || pyStartsWith s "%sql" then st
    else if pyStartsWith s "%python" then
      let code := pyStrip (pyDrop 7 s)
      if code = "" then st
      else { st with processed_lines := st.processed_lines ++ [code] }
    else st
  else if pyStartsWith s "# " && !st.in_code_cell then st
  else
    let st2 := { st with processed_lines := st.processed_lines ++ [line] }
    if s = "" then { st2 with in_code_cell := false } else st2

/-- preprocess_databricks_notebook (tools.py lines 132-190): splits on
newlines, runs the line loop, joins the kept lines with newlines. -/
def preprocess_databricks_notebook (content : String) : String :=
  let lines := pySplitLines content
  let final := lines.foldl preprocessLine
    { processed_lines := [], in_code_cell := false, in_markdown := false }
  pyJoinLines final.processed_lines

/-- Result of analyze_file: either an analysis record, or the error
marker dict returned at tools.py line 311 when an exception (in
particular a parse failure of ast.parse) is caught; the exception
text it carries is not modelled. -/
inductive AnalyzeResult where
  | ok (analysis : FileAnalysis)
  | error
deriving DecidableEq, Repr

/-- code_parser.analyze_file (tools.py lines 195-311).  The call to
the external library function ast.parse is modelled by the parameter
parse, which returns none exactly when ast.parse raises on the given
text; any such exception is caught by the handler at line 309 and
turned into the error marker. -/
def analyze_file (source_code : String)
    (parse : String → Option PyModule) : AnalyzeResult :=
  let cleaned_code := preprocess_databricks_notebook source_code
  if pyStrip cleaned_code = "" then .ok emptyAnalysis
  else
    match parse cleaned_code with
    | some tree => .ok (analyzeTree tree)
    | none => .error

/-- The per-pattern file counters of the codebase summary
(tools.py lines 320-326). -/
structure SummaryPatterns where
  files_with_data_validation : Nat
  files_with_error_handling : Nat
  files_with_logging : Nat
  files_with_performance_optimizations : Nat
  files_with_documentation : Nat
deriving DecidableEq, Repr

/-- The summary sub-dict of the codebase analysis
(tools.py lines 316-327). -/
structure Summary where
  total_files : Nat
  total_transformations : Nat
  total_data_operations : Nat
  patterns : SummaryPatterns
deriving DecidableEq, Repr

/-- The codebase analysis built by code_parser (tools.py lines
314-328): a files map (relative path to per-file record; the walk
yields distinct relative paths, so dict insertion is an append) and
the summary counters. -/
structure CodebaseAnalysis where
  files : List (String × FileAnalysis)
  summary : Summary
deriving DecidableEq, Repr

/-- The initial codebase analysis of tools.py lines 314-328: empty
files map, all counters zero. -/
def initialCodebaseAnalysis : CodebaseAnalysis :=
  { files := []
    summary :=
      { total_files := 0
        total_transformations := 0
        total_data_operations := 0
        patterns :=
          { files_with_data_validation := 0
            files_with_error_handling := 0
            files_with_logging := 0
            files_with_performance_optimizations := 0
            files_with_documentation := 0 } } }

/-- One iteration of the per-file loop of code_parser (tools.py lines
342-381) for a file that was read successfully: when analyze_file
returned the error marker the file is skipped (lines 355, 376-377),
otherwise the record is stored in the files map and every summary
counter is updated (lines 357-373). -/
def aggregateStep (ca : CodebaseAnalysis) (entry : String × AnalyzeResult) :
    CodebaseAnalysis :=
  match entry with
  | (_, .error) => ca
  | (path, .ok a) =>
    let s := ca.summary
    let p := s.patterns
    { files := ca.files ++ [(path, a)]
      summary :=
        { total_files := s.total_files + 1
          total_transformations :=
            s.total_transformations + a.transformations.length
          total_data_operations :=
            s.total_data_operations + a.data_operations.length
          patterns :=
            { files_with_data_validation :=
                p.files_with_data_validation +
                  (if a.patterns.has_data_validation then 1 else 0)
              files_with_error_handling :=
                p.files_with_error_handling +
                  (if a.patterns.has_error_handling then 1 else 0)
              files_with_logging :=
                p.files_with_logging +
                  (if a.patterns.has_logging then 1 else 0)
              files_with_performance_optimizations :=
                p.files_with_performance_optimizations +
                  (if a.patterns.has_performance_optimizations then 1 else 0)
              files_with_documentation :=
                p.files_with_documentation +
                  (if a.patterns.has_documentation then 1 else 0) } } }

/-- The aggregation loop of code_parser (tools.py lines 337-396).  The
file-system walk, the UTF-8 read and the exclusion of directories are
I/O and are represented by the input list: one entry per visited .py
file, in walk order, carrying its relative path and the result of
analyze_file on its contents.  Files whose read raised are skipped by
the source (lines 379-381) and simply do not appear in the list. -/
def code_parser_aggregate (results : List (String × AnalyzeResult)) :
    CodebaseAnalysis :=
  results.foldl aggregateStep initialCodebaseAnalysis

/-- The details payload attached to a compliant finding
(tools.py lines 425-429, 441-445, 477-481); violations and warnings
carry no details. -/
inductive Details where
  | none
  | qualityChecks (checks : List CheckEntry)
  | performance (pm : PerformanceMetrics)
  | operations (ops : List (String × Occurrence))
deriving DecidableEq, Repr

/-- One finding dict appended by the validator checks: violations and
warnings carry a severity and no details, compliant entries carry
details and no severity. -/
structure Finding where
  type : String
  message : String
  severity : Option String
  details : Details
deriving DecidableEq, Repr

/-- The metrics sub-dict of the validation results (tools.py lines
407-412), with exact rational arithmetic for the Python float
divisions. -/
structure Metrics where
  overall_compliance : Rat
  rule_coverage : Rat
  data_quality_score : Rat
  performance_score : Rat
deriving DecidableEq, Repr

/-- The validation_results dict of code_validator
(tools.py lines 402-413). -/
structure ValidationResults where
  compliant : List Finding
  violations : List Finding
  warnings : List Finding
  suggestions : List Finding
  metrics : Metrics
deriving DecidableEq, Repr

/-- The initial validation_results value of tools.py lines 402-413:
empty finding lists, all metrics zero. -/
def initValidationResults : ValidationResults :=
  { compliant := []
    violations := []
    warnings := []
    suggestions := []
    metrics :=
      { overall_compliance := 0
        rule_coverage := 0
        data_quality_score := 0
        performance_score := 0 } }

/-- The code_analysis argument of code_validator: a dict that may or
may not carry the files key; code_analysis.get with default {} is
modelled by Option.getD with default []. -/
structure CodeAnalysisInput where
  files : Option (List (String × FileAnalysis))
deriving DecidableEq

/-- Python blueprint_rules.get(k): the value under the first binding
of k, or None (falsy, like the empty list) when the key is absent. -/
def catalogGet (rules : List (String × List String)) (k : String) :
    List String :=
  match rules with
  | [] => []
  | (k2, v) :: rest => if k2 = k then v else catalogGet rest k

/-- check_data_quality (tools.py lines 415-429): gated on a non-empty
data_handling category; files without the data-validation flag get a
high-severity violation, the others a compliant entry whose details
are the quality-checks list. -/
def check_data_quality (rules : List (String × List String))
    (files : List (String × FileAnalysis)) (r : ValidationResults) :
    ValidationResults :=
  if catalogGet rules "data_handling" ≠ [] then
    files.foldl (fun r pa =>
      if pa.2.patterns.has_data_validation = false then
        { r with violations := r.violations ++
            [(⟨"data_quality",
               "File \x27" ++ pa.1 ++ "\x27 lacks data quality checks",
               some "high", .none⟩ : Finding)] }
      else
        { r with compliant := r.compliant ++
            [(⟨"data_quality",
               "File \x27" ++ pa.1 ++ "\x27 has data quality checks",
               Option.none, .qualityChecks pa.2.data_quality_checks⟩ : Finding)] }) r
  else r

/-- check_performance_optimizations (tools.py lines 431-445): gated on
a non-empty performance_guidelines category. -/
def check_performance_optimizations (rules : List (String × List String))
    (files : List (String × FileAnalysis)) (r : ValidationResults) :
    ValidationResults :=
  if catalogGet rules "performance_guidelines" ≠ [] then
    files.foldl (fun r pa =>
      if pa.2.patterns.has_performance_optimizations = false then
        { r with warnings := r.warnings ++
            [(⟨"performance",
               "File \x27" ++ pa.1 ++ "\x27 lacks performance optimizations",
               some "medium", .none⟩ : Finding)] }
      else
        { r with compliant := r.compliant ++
            [(⟨"performance",
               "File \x27" ++ pa.1 ++ "\x27 has performance optimizations",
               Option.none, .performance pa.2.performance_metrics⟩ : Finding)] }) r
  else r

/-- check_error_handling (tools.py lines 447-455): gated on a
non-empty error_handling category; no compliant branch. -/
def check_error_handling (rules : List (String × List String))
    (files : List (String × FileAnalysis)) (r : ValidationResults) :
    ValidationResults :=
  if catalogGet rules "error_handling" ≠ [] then
    files.foldl (fun r pa =>
      if pa.2.patterns.has_error_handling = false then
        { r with violations := r.violations ++
            [(⟨"error_handling",
               "File \x27" ++ pa.1 ++ "\x27 lacks proper error handling",
               some "high", .none⟩ : Finding)] }
      else r) r
  else r

/-- check_documentation (tools.py lines 457-465): the gate reads the
key named documentation, exactly as the source does at line 458 (not
the documentation_requirements category that the catalog builder
document_parser produces at tools.py lines 20-30). -/
def check_documentation (rules : List (String × List String))
    (files : List (String × FileAnalysis)) (r : ValidationResults) :
    ValidationResults :=
  if catalogGet rules "documentation" ≠ [] then
    files.foldl (fun r pa =>
      if pa.2.patterns.has_documentation = false then
        { r with warnings := r.warnings ++
            [(⟨"documentation",
               "File \x27" ++ pa.1 ++ "\x27 is missing documentation",
               some "medium", .none⟩ : Finding)] }
      else r) r
  else r

/-- check_data_operations (tools.py lines 467-481): gated on a
non-empty data_handling category. -/
def check_data_operations (rules : List (String × List String))
    (files : List (String × FileAnalysis)) (r : ValidationResults) :
    ValidationResults :=
  if catalogGet rules "data_handling" ≠ [] then
    files.foldl (fun r pa =>
      if pa.2.data_operations = [] then
        { r with warnings := r.warnings ++
            [(⟨"data_operations",
               "File \x27" ++ pa.1 ++ "\x27 has no data read/write operations",
               some "medium", .none⟩ : Finding)] }
      else
        { r with compliant := r.compliant ++
            [(⟨"data_operations",
               "File \x27" ++ pa.1 ++ "\x27 has data operations",
               Option.none, .operations pa.2.data_operations⟩ : Finding)] }) r
  else r

/-- The five check calls of tools.py lines 484-488, in source order. -/
def run_checks (rules : List (String × List String))
    (files : List (String × FileAnalysis)) : ValidationResults :=
  check_data_operations rules files
    (check_documentation rules files
      (check_error_handling rules files
        (check_performance_optimizations rules files
          (check_data_quality rules files initValidationResults))))

/-- The total rule count of tools.py line 491: the sum of the lengths
of all rule lists of the catalog. -/
def totalRules (rules : List (String × List String)) : Nat :=
  (rules.map (fun kv => kv.2.length)).sum

/-- code_validator (tools.py lines 400-510): runs the five checks,
then derives the metrics when the total rule count is positive. -/
def code_validator (code_analysis : CodeAnalysisInput)
    (blueprint_rules : List (String × List String)) : ValidationResults :=
  let files := code_analysis.files.getD []
  let r := run_checks blueprint_rules files
  let total_rules := totalRules blueprint_rules
  let total_violations := r.violations.length
  let total_warnings := r.warnings.length
  if 0 < total_rules then
    let m := { r.metrics with
        rule_coverage :=
          ((total_violations + total_warnings : Nat) : Rat) / (total_rules : Rat)
        overall_compliance :=
          1 - ((total_violations : Nat) : Rat) / (total_rules : Rat) }
    let data_quality_compliant :=
      (r.compliant.filter (fun c => c.type == "data_quality")).length
    let total_files := files.length
    let m :=
      if 0 < total_files then
        { m with data_quality_score :=
            (data_quality_compliant : Rat) / (total_files : Rat) }
      else m
    let performance_compliant :=
      (r.compliant.filter (fun c => c.type == "performance")).length
    let m :=
      if 0 < total_files then
        { m with performance_score :=
            (performance_compliant : Rat) / (total_files : Rat) }
      else m
    { r with metrics := m }
  else r

/-- Parse stub for source texts that ast.parse rejects, such as the
text (def f) followed by an unclosed parenthesis: ast.parse raises a
SyntaxError on them, modelled by returning none. -/
def noParse : String → Option PyModule := fun _ => Option.none

/-- The ast.walk node list of the one-line module source df.cache():
Module, Expr, Call with attribute cache on line 1 and no arguments,
Attribute, Name.  Nodes the extractor does not branch on are
modelled as other. -/
def cacheCallModule : PyModule :=
  { walk := [.other, .other, .call (some "cache") 1 [], .other, .other]
    docstring := Option.none }

/-- The ast.walk node list of the two-line module source df.read(a)
followed by df.read(b): Module, two Expr nodes, the two read calls in
breadth-first order, then their Attribute and Name children. -/
def twoReadsModule : PyModule :=
  { walk := [.other, .other, .other,
      .call (some "read") 1 ["a"], .call (some "read") 2 ["b"],
      .other, .other, .other, .other, .other, .other]
    docstring := Option.none }

/-- The ast.walk node list of the one-line module source df.filter(x):
Module, Expr, Call with attribute filter on line 1 and argument text
x, Attribute, Name, Name. -/
def filterCallModule : PyModule :=
  { walk := [.other, .other, .call (some "filter") 1 ["x"], .other,
      .other, .other]
    docstring := Option.none }

/-- Parse stub mapping the source df.filter(x) to its module tree. -/
def filterParse : String → Option PyModule := fun _ => some filterCallModule

/-- First-some choice on options, the shape of successive dict
overwrites read backwards. -/
def optOr {α : Type} (x y : Option α) : Option α :=
  match x with
  | some v => some v
  | none => y

/-- The data-operation occurrence a single walked node contributes for
kind k: a call whose trailing attribute equals k and is one of the
data-operation names. -/
def opOcc (k : String) (n : PyNode) : Option Occurrence :=
  match n with
  | .call (some attr) line args =>
    if attr = k ∧ attr ∈ dataOpAttrs then some ⟨line, args⟩ else Option.none
  | _ => Option.none

/-- The first data-operation occurrence of kind k in a node list. -/
def firstOp (k : String) : List PyNode → Option Occurrence
  | [] => Option.none
  | n :: rest => optOr (opOcc k n) (firstOp k rest)

/-- The last data-operation occurrence of kind k in a walk, i.e. the
first one of the reversed walk. -/
def lastDataOp (walk : List PyNode) (k : String) : Option Occurrence :=
  firstOp k walk.reverse

/-- The deterministic-sum invariant of the aggregated summary: every
counter equals the corresponding sum or count over the files map. -/
def summaryMatchesFiles (ca : CodebaseAnalysis) : Prop :=
  ca.summary.total_files = ca.files.length ∧
  ca.summary.total_transformations =
    (ca.files.map (fun pa => pa.2.transformations.length)).sum ∧
  ca.summary.total_data_operations =
    (ca.files.map (fun pa => pa.2.data_operations.length)).sum ∧
  ca.summary.patterns.files_with_data_validation =
    (ca.files.filter (fun pa => pa.2.patterns.has_data_validation)).length ∧
  ca.summary.patterns.files_with_error_handling =
    (ca.files.filter (fun pa => pa.2.patterns.has_error_handling)).length ∧
  ca.summary.patterns.files_with_logging =
    (ca.files.filter (fun pa => pa.2.patterns.has_logging)).length ∧
  ca.summary.patterns.files_with_performance_optimizations =
    (ca.files.filter (fun pa => pa.2.patterns.has_performance_optimizations)).length ∧
  ca.summary.patterns.files_with_documentation =
    (ca.files.filter (fun pa => pa.2.patterns.has_documentation)).length

/-- A fold whose step never touches the metrics leaves them unchanged. -/
theorem foldl_preserves_metrics
    (step : ValidationResults → (String × FileAnalysis) → ValidationResults)
    (hstep : ∀ r pa, (step r pa).metrics = r.metrics) :
    ∀ (files : List (String × FileAnalysis)) (r : ValidationResults),
      (files.foldl step r).metrics = r.metrics := by
  intro files
  induction files with
  | nil => intro r; rfl
  | cons pa rest ih =>
    intro r
    simp only [List.foldl_cons]
    rw [ih, hstep]

/-- check_data_quality only appends findings. -/
theorem check_data_quality_metrics (rules : List (String × List String))
    (files : List (String × FileAnalysis)) (r : ValidationResults) :
    (check_data_quality rules files r).metrics = r.metrics := by
  unfold check_data_quality
  split
  · exact foldl_preserves_metrics _ (by intro r pa; split <;> rfl) files r
  · rfl

/-- check_performance_optimizations only appends findings. -/
theorem check_performance_metrics (rules : List (String × List String))
    (files : List (String × FileAnalysis)) (r : ValidationResults) :
    (check_performance_optimizations rules files r).metrics = r.metrics := by
  unfold check_performance_optimizations
  split
  · exact foldl_preserves_metrics _ (by intro r pa; split <;> rfl) files r
  · rfl

/-- check_error_handling only appends findings. -/
theorem check_error_handling_metrics (rules : List (String × List String))
    (files : List (String × FileAnalysis)) (r : ValidationResults) :
    (check_error_handling rules files r).metrics = r.metrics := by
  unfold check_error_handling
  split
  · exact foldl_preserves_metrics _ (by intro r pa; split <;> rfl) files r
  · rfl

/-- check_documentation only appends findings. -/
theorem check_documentation_metrics (rules : List (String × List String))
    (files : List (String × FileAnalysis)) (r : ValidationResults) :
    (check_documentation rules files r).metrics = r.metrics := by
  unfold check_documentation
  split
  · exact foldl_preserves_metrics _ (by intro r pa; split <;> rfl) files r
  · rfl

/-- check_data_operations only appends findings. -/
theorem check_data_operations_metrics (rules : List (String × List String))
    (files : List (String × FileAnalysis)) (r : ValidationResults) :
    (check_data_operations rules files r).metrics = r.metrics := by
  unfold check_data_operations
  split
  · exact foldl_preserves_metrics _ (by intro r pa; split <;> rfl) files r
  · rfl

/-- After the five checks the metrics still hold their initial zeros. -/
theorem run_checks_metrics (rules : List (String × List String))
    (files : List (String × FileAnalysis)) :
    (run_checks rules files).metrics = initValidationResults.metrics := by
  unfold run_checks
  rw [check_data_operations_metrics, check_documentation_metrics,
    check_error_handling_metrics, check_performance_metrics,
    check_data_quality_metrics]

/-- Every check is the identity on an empty files map. -/
theorem check_data_quality_nil (rules : List (String × List String))
    (r : ValidationResults) : check_data_quality rules [] r = r := by
  unfold check_data_quality
  split <;> rfl

/-- check_performance_optimizations on an empty files map. -/
theorem check_performance_nil (rules : List (String × List String))
    (r : ValidationResults) : check_performance_optimizations rules [] r = r := by
  unfold check_performance_optimizations
  split <;> rfl

/-- check_error_handling on an empty files map. -/
theorem check_error_handling_nil (rules : List (String × List String))
    (r : ValidationResults) : check_error_handling rules [] r = r := by
  unfold check_error_handling
  split <;> rfl

/-- check_documentation on an empty files map. -/
theorem check_documentation_nil (rules : List (String × List String))
    (r : ValidationResults) : check_documentation rules [] r = r := by
  unfold check_documentation
  split <;> rfl

/-- check_data_operations on an empty files map. -/
theorem check_data_operations_nil (rules : List (String × List String))
    (r : ValidationResults) : check_data_operations rules [] r = r := by
  unfold check_data_operations
  split <;> rfl

/-- With no files every check is skipped and the initial results
value is returned unchanged. -/
theorem run_checks_nil (rules : List (String × List String)) :
    run_checks rules [] = initValidationResults := by
  unfold run_checks
  rw [check_data_quality_nil, check_performance_nil,
    check_error_handling_nil, check_documentation_nil,
    check_data_operations_nil]

/-- The metrics step of code_validator leaves the violations list of
the check phase untouched. -/
theorem code_validator_violations_eq (ca : CodeAnalysisInput)
    (rules : List (String × List String)) :
    (code_validator ca rules).violations =
      (run_checks rules (ca.files.getD [])).violations := by
  unfold code_validator
  dsimp only
  split_ifs <;> rfl

/-- The metrics step of code_validator leaves the warnings list of
the check phase untouched. -/
theorem code_validator_warnings_eq (ca : CodeAnalysisInput)
    (rules : List (String × List String)) :
    (code_validator ca rules).warnings =
      (run_checks rules (ca.files.getD [])).warnings := by
  unfold code_validator
  dsimp only
  split_ifs <;> rfl

/-- The metrics step of code_validator leaves the compliant list of
the check phase untouched. -/
theorem code_validator_compliant_eq (ca : CodeAnalysisInput)
    (rules : List (String × List String)) :
    (code_validator ca rules).compliant =
      (run_checks rules (ca.files.getD [])).compliant := by
  unfold code_validator
  dsimp only
  split_ifs <;> rfl

/-- The rule_coverage metric of code_validator in closed form. -/
theorem code_validator_rule_coverage (ca : CodeAnalysisInput)
    (rules : List (String × List String)) :
    (code_validator ca rules).metrics.rule_coverage =
      (if 0 < totalRules rules then
        (((run_checks rules (ca.files.getD [])).violations.length +
          (run_checks rules (ca.files.getD [])).warnings.length : Nat) : Rat) /
          (totalRules rules : Rat)
      else 0) := by
  unfold code_validator
  dsimp only
  by_cases h : 0 < totalRules rules
  · simp only [h, if_true]
    split_ifs <;> rfl
  · simp only [h, if_false]
    rw [run_checks_metrics]
    rfl

/-- The overall_compliance metric of code_validator in closed form. -/
theorem code_validator_overall_compliance (ca : CodeAnalysisInput)
    (rules : List (String × List String)) :
    (code_validator ca rules).metrics.overall_compliance =
      (if 0 < totalRules rules then
        1 - (((run_checks rules (ca.files.getD [])).violations.length : Nat) : Rat) /
          (totalRules rules : Rat)
      else 0) := by
  unfold code_validator
  dsimp only
  by_cases h : 0 < totalRules rules
  · simp only [h, if_true]
    split_ifs <;> rfl
  · simp only [h, if_false]
    rw [run_checks_metrics]
    rfl

/-- The data_quality_score metric of code_validator in closed form. -/
theorem code_validator_data_quality_score (ca : CodeAnalysisInput)
    (rules : List (String × List String)) :
    (code_validator ca rules).metrics.data_quality_score =
      (if 0 < totalRules rules ∧ 0 < (ca.files.getD []).length then
        ((((run_checks rules (ca.files.getD [])).compliant.filter
            (fun c => c.type == "data_quality")).length : Nat) : Rat) /
          ((ca.files.getD []).length : Rat)
      else 0) := by
  unfold code_validator
  dsimp only
  by_cases h : 0 < totalRules rules
  · by_cases hf : 0 < (ca.files.getD []).length
    · simp only [h, hf, if_true, and_self]
    · simp only [h, hf, if_true, if_false, and_false]
      rw [run_checks_metrics]
      rfl
  · simp only [h, if_false, false_and]
    rw [run_checks_metrics]
    rfl

/-- The performance_score metric of code_validator in closed form. -/
theorem code_validator_performance_score (ca : CodeAnalysisInput)
    (rules : List (String × List String)) :
    (code_validator ca rules).metrics.performance_score =
      (if 0 < totalRules rules ∧ 0 < (ca.files.getD []).length then
        ((((run_checks rules (ca.files.getD [])).compliant.filter
            (fun c => c.type == "performance")).length : Nat) : Rat) /
          ((ca.files.getD []).length : Rat)
      else 0) := by
  unfold code_validator
  dsimp only
  by_cases h : 0 < totalRules rules
  · by_cases hf : 0 < (ca.files.getD []).length
    · simp only [h, hf, if_true, and_self]
    · simp only [h, hf, if_true, if_false, and_false]
      rw [run_checks_metrics]
      rfl
  · simp only [h, if_false, false_and]
    rw [run_checks_metrics]
    rfl

/-- optOr is associative. -/
theorem optOr_assoc {α : Type} (x y z : Option α) :
    optOr (optOr x y) z = optOr x (optOr y z) := by
  cases x <;> rfl

/-- optOr with none on the right is the identity. -/
theorem optOr_none_right {α : Type} (x : Option α) : optOr x Option.none = x := by
  cases x <;> rfl

/-- firstOp distributes over append through optOr. -/
theorem firstOp_append (k : String) (l1 l2 : List PyNode) :
    firstOp k (l1 ++ l2) = optOr (firstOp k l1) (firstOp k l2) := by
  induction l1 with
  | nil => rfl
  | cons n rest ih =>
    simp only [List.cons_append, firstOp, List.append_eq]
    rw [ih, optOr_assoc]

/-- Prepending a node to the walk puts its occurrence last in the
reversed order. -/
theorem lastDataOp_cons (n : PyNode) (rest : List PyNode) (k : String) :
    lastDataOp (n :: rest) k = optOr (lastDataOp rest k) (opOcc k n) := by
  unfold lastDataOp
  rw [List.reverse_cons, firstOp_append]
  simp only [firstOp]
  rw [optOr_none_right]

/-- Looking up k after a dict assignment of key: the new value when
the keys agree, the old lookup otherwise. -/
theorem dictLookup_dictInsert {α : Type} (d : List (String × α))
    (k key : String) (v : α) :
    dictLookup (dictInsert d key v) k =
      if key = k then some v else dictLookup d k := by
  induction d with
  | nil =>
    simp only [dictInsert, dictLookup]
  | cons kv rest ih =>
    obtain ⟨k2, v2⟩ := kv
    by_cases h2 : k2 = key
    · subst h2
      simp only [dictInsert, if_pos rfl, dictLookup]
      by_cases hk : k2 = k <;> simp [dictLookup, hk]
    · simp only [dictInsert, if_neg h2, dictLookup]
      by_cases hk : k2 = k
      · subst hk
        have : ¬ key = k2 := fun h => h2 h.symm
        simp [this]
      · simp [hk, ih]

/-- One walk step changes the data_operations lookup exactly by the
occurrence the node contributes. -/
theorem dictLookup_processDataNode (a : FileAnalysis) (n : PyNode) (k : String) :
    dictLookup (processDataNode a n).data_operations k =
      optOr (opOcc k n) (dictLookup a.data_operations k) := by
  cases n with
  | call attr line args =>
    cases attr with
    | none => rfl
    | some s =>
      by_cases hmem : s ∈ dataOpAttrs
      · by_cases hk : s = k
        · subst hk
          simp only [processDataNode, if_pos hmem, opOcc, hmem, and_true,
            if_pos rfl]
          split <;> split <;>
            simp [dictLookup_dictInsert, optOr]
        · have hocc : opOcc k (.call (some s) line args) = Option.none := by
            simp [opOcc, hk]
          rw [hocc]
          simp only [processDataNode, if_pos hmem]
          split <;> split <;>
            simp [dictLookup_dictInsert, optOr, hk]
      · have hocc : opOcc k (.call (some s) line args) = Option.none := by
          simp [opOcc, hmem]
        rw [hocc]
        simp only [processDataNode, if_neg hmem]
        split <;> split <;> simp [optOr]
  | assignCall attr line target args =>
    cases attr with
    | none => rfl
    | some s =>
      simp only [processDataNode, opOcc]
      split <;> simp [optOr]
  | tryStmt => rfl
  | importStmt names => rfl
  | importFrom m names => rfl
  | other => rfl

/-- Folding the walk, the data_operations lookup is the last
occurrence in the processed prefix, falling back to the initial
dict. -/
theorem dictLookup_foldl_process (walk : List PyNode) :
    ∀ (a : FileAnalysis) (k : String),
      dictLookup (walk.foldl processDataNode a).data_operations k =
        optOr (lastDataOp walk k) (dictLookup a.data_operations k) := by
  induction walk with
  | nil =>
    intro a k
    simp [lastDataOp, firstOp, optOr]
  | cons n rest ih =>
    intro a k
    simp only [List.foldl_cons]
    rw [ih, dictLookup_processDataNode, lastDataOp_cons, optOr_assoc]

/-- The quality-check names and the data-operation names are
disjoint. -/
theorem quality_dataOp_disjoint (s : String)
    (h1 : s ∈ qualityAttrs) (h2 : s ∈ dataOpAttrs) : False := by
  fin_cases h1 <;> exact absurd h2 (by decide)

/-- The quality-check names and the performance names are disjoint. -/
theorem quality_perf_disjoint (s : String)
    (h1 : s ∈ qualityAttrs) (h2 : s ∈ perfAttrs) : False := by
  fin_cases h1 <;> exact absurd h2 (by decide)

/-- The only names shared by the data-operation and performance sets
are cache and persist. -/
theorem dataOp_perf_inter (s : String)
    (h1 : s ∈ dataOpAttrs) (h2 : s ∈ perfAttrs) :
    s = "cache" ∨ s = "persist" := by
  fin_cases h1
  · exact absurd h2 (by decide)
  · exact absurd h2 (by decide)
  · exact absurd h2 (by decide)
  · exact Or.inl rfl
  · exact Or.inr rfl

/-- The quality-checks list a single call node contributes when
processed from the empty record. -/
theorem processDataNode_call_quality (attr : String) (line : Nat)
    (args : List String) :
    (processDataNode emptyAnalysis (.call (some attr) line args)).data_quality_checks =
      if attr ∈ qualityAttrs then [(⟨attr, line, args⟩ : CheckEntry)] else [] := by
  simp only [processDataNode]
  split_ifs <;> rfl

/-- The data-operations dict a single call node contributes when
processed from the empty record. -/
theorem processDataNode_call_ops (attr : String) (line : Nat)
    (args : List String) :
    (processDataNode emptyAnalysis (.call (some attr) line args)).data_operations =
      if attr ∈ dataOpAttrs then [(attr, (⟨line, args⟩ : Occurrence))] else [] := by
  simp only [processDataNode]
  split_ifs <;> rfl

/-- The optimization-hints list a single call node contributes when
processed from the empty record. -/
theorem processDataNode_call_hints (attr : String) (line : Nat)
    (args : List String) :
    (processDataNode emptyAnalysis (.call (some attr) line args)).performance_metrics.optimization_hints =
      if attr ∈ perfAttrs then [(⟨attr, line, args⟩ : CheckEntry)] else [] := by
  simp only [processDataNode]
  split_ifs <;> rfl

/-- One aggregation step keeps every summary counter equal to its
deterministic sum over the files map. -/
theorem aggregateStep_invariant (ca : CodebaseAnalysis)
    (entry : String × AnalyzeResult) (h : summaryMatchesFiles ca) :
    summaryMatchesFiles (aggregateStep ca entry) := by
  obtain ⟨h1, h2, h3, h4, h5, h6, h7, h8⟩ := h
  obtain ⟨path, res⟩ := entry
  cases res with
  | error => exact ⟨h1, h2, h3, h4, h5, h6, h7, h8⟩
  | ok a =>
    refine ⟨?_, ?_, ?_, ?_, ?_, ?_, ?_, ?_⟩ <;>
      simp only [aggregateStep, List.filter_append, List.length_append,
        List.map_append, List.sum_append, List.map_cons, List.map_nil,
        List.sum_cons, List.sum_nil, List.length_cons, List.length_nil,
        List.filter_cons, List.filter_nil]
    · rw [h1]
    · rw [h2]; omega
    · rw [h3]; omega
    · rw [h4]; cases a.patterns.has_data_validation <;> simp
    · rw [h5]; cases a.patterns.has_error_handling <;> simp
    · rw [h6]; cases a.patterns.has_logging <;> simp
    · rw [h7]; cases a.patterns.has_performance_optimizations <;> simp
    · rw [h8]; cases a.patterns.has_documentation <;> simp

/-- The aggregation fold preserves the summary invariant. -/
theorem foldl_aggregate_invariant (results : List (String × AnalyzeResult)) :
    ∀ ca : CodebaseAnalysis, summaryMatchesFiles ca →
      summaryMatchesFiles (results.foldl aggregateStep ca) := by
  induction results with
  | nil => intro ca h; exact h
  | cons e rest ih =>
    intro ca h
    exact ih _ (aggregateStep_invariant ca e h)

/-- The pattern-flag invariant of the tree analysis: the
data-validation flag tracks a non-empty quality-checks list and the
performance flag a non-empty hints list. -/
theorem analyzeTree_flags (tree : PyModule) :
    ((analyzeTree tree).patterns.has_data_validation = true ↔
      (analyzeTree tree).data_quality_checks ≠ []) ∧
    ((analyzeTree tree).patterns.has_performance_optimizations = true ↔
      (analyzeTree tree).performance_metrics.optimization_hints ≠ []) := by
  unfold analyzeTree
  dsimp only
  constructor
  · simp [List.length_pos]
  · simp [List.length_pos]

/-- C1: the documentation check of code_validator is gated on the
dict key named documentation, which the catalog builder
document_parser never produces; with a catalog whose
documentation_requirements list is non-empty and one file whose
has_documentation flag is false, validate emits no documentation
warning (and no finding at all), contradicting the claimed gating on
the documentation_requirements category. -/
theorem c1_documentation_check_never_fires :
    (code_validator ⟨some [("etl_job.py", emptyAnalysis)]⟩
        [("documentation_requirements",
          ["Document all public APIs and functions"])]).warnings = [] ∧
    (code_validator ⟨some [("etl_job.py", emptyAnalysis)]⟩
        [("documentation_requirements",
          ["Document all public APIs and functions"])]).violations = [] ∧
    (code_validator ⟨some [("etl_job.py", emptyAnalysis)]⟩
        [("documentation_requirements",
          ["Document all public APIs and functions"])]).compliant = [] := by
  decide

/-- C2 counterexample: with the files key absent and a non-empty
catalog, code_validator returns normally with a ValidationResult
whose finding lists are all empty (overall_compliance even computes
to 1), instead of failing fast with a validation-input error. -/
theorem c2_counterexample :
    (code_validator ⟨Option.none⟩
        [("data_handling",
          ["Validate data quality before loading into production"])]).compliant = [] ∧
    (code_validator ⟨Option.none⟩
        [("data_handling",
          ["Validate data quality before loading into production"])]).violations = [] ∧
    (code_validator ⟨Option.none⟩
        [("data_handling",
          ["Validate data quality before loading into production"])]).warnings = [] ∧
    (code_validator ⟨Option.none⟩
        [("data_handling",
          ["Validate data quality before loading into production"])]).suggestions = [] := by
  decide

/-- C2 amended: when the files key is absent, code_validator does not
fail; it treats the analysis as having no files, every check is
vacuous, and the returned ValidationResult has all four finding lists
empty. -/
theorem c2_missing_files_returns_empty_findings
    (blueprint_rules : List (String × List String)) :
    (code_validator ⟨Option.none⟩ blueprint_rules).compliant = [] ∧
    (code_validator ⟨Option.none⟩ blueprint_rules).violations = [] ∧
    (code_validator ⟨Option.none⟩ blueprint_rules).warnings = [] ∧
    (code_validator ⟨Option.none⟩ blueprint_rules).suggestions = [] := by
  unfold code_validator
  dsimp only
  rw [Option.getD_none, run_checks_nil]
  refine ⟨?_, ?_, ?_, ?_⟩ <;> split <;> rfl

/-- C3: when the catalog has at least one rule, rule_coverage is the
number of violations plus warnings over the total rule count and
overall_compliance is one minus violations over the total rule count,
with exact unclamped rational arithmetic; when the total rule count is
zero all four metrics keep their default zero (the two per-file scores
are also characterized in full: they stay zero unless both the rule
count and the file count are positive). -/
theorem c3_metrics_formulas (ca : CodeAnalysisInput)
    (rules : List (String × List String)) :
    (code_validator ca rules).metrics.rule_coverage =
      (if 0 < totalRules rules then
        (((code_validator ca rules).violations.length +
          (code_validator ca rules).warnings.length : Nat) : Rat) /
          (totalRules rules : Rat)
      else 0) ∧
    (code_validator ca rules).metrics.overall_compliance =
      (if 0 < totalRules rules then
        1 - (((code_validator ca rules).violations.length : Nat) : Rat) /
          (totalRules rules : Rat)
      else 0) ∧
    (code_validator ca rules).metrics.data_quality_score =
      (if 0 < totalRules rules ∧ 0 < (ca.files.getD []).length then
        ((((code_validator ca rules).compliant.filter
            (fun c => c.type == "data_quality")).length : Nat) : Rat) /
          ((ca.files.getD []).length : Rat)
      else 0) ∧
    (code_validator ca rules).metrics.performance_score =
      (if 0 < totalRules rules ∧ 0 < (ca.files.getD []).length then
        ((((code_validator ca rules).compliant.filter
            (fun c => c.type == "performance")).length : Nat) : Rat) /
          ((ca.files.getD []).length : Rat)
      else 0) := by
  refine ⟨?_, ?_, ?_, ?_⟩
  · rw [code_validator_rule_coverage, code_validator_violations_eq,
      code_validator_warnings_eq]
  · rw [code_validator_overall_compliance, code_validator_violations_eq]
  · rw [code_validator_data_quality_score, code_validator_compliant_eq]
  · rw [code_validator_performance_score, code_validator_compliant_eq]

/-- C4: on the spec example-a catalog with one data_handling rule and
one error_handling rule, and a single file with no quality checks, no
error handling and no data operations-validate returns exactly one
data_quality violation, one error_handling violation and one
data_operations warning, with rule_coverage 3/2 and
overall_compliance 0. -/
theorem c4_spec_example :
    (code_validator ⟨some [("etl.py", emptyAnalysis)]⟩
        [("data_handling", ["r1"]), ("error_handling", ["r2"])]).violations =
      [(⟨"data_quality", "File \x27etl.py\x27 lacks data quality checks",
         some "high", .none⟩ : Finding),
       (⟨"error_handling", "File \x27etl.py\x27 lacks proper error handling",
         some "high", .none⟩ : Finding)] ∧
    (code_validator ⟨some [("etl.py", emptyAnalysis)]⟩
        [("data_handling", ["r1"]), ("error_handling", ["r2"])]).warnings =
      [(⟨"data_operations",
         "File \x27etl.py\x27 has no data read/write operations",
         some "medium", .none⟩ : Finding)] ∧
    (code_validator ⟨some [("etl.py", emptyAnalysis)]⟩
        [("data_handling", ["r1"]), ("error_handling", ["r2"])]).metrics.rule_coverage
      = 3 / 2 ∧
    (code_validator ⟨some [("etl.py", emptyAnalysis)]⟩
        [("data_handling", ["r1"]), ("error_handling", ["r2"])]).metrics.overall_compliance
      = 0 := by
  refine ⟨by decide, by decide, ?_, ?_⟩
  · have h : (code_validator ⟨some [("etl.py", emptyAnalysis)]⟩
        [("data_handling", ["r1"]), ("error_handling", ["r2"])]).metrics.rule_coverage =
        ((2 + 1 : Nat) : Rat) / ((2 : Nat) : Rat) := rfl
    rw [h]
    norm_num
  · have h : (code_validator ⟨some [("etl.py", emptyAnalysis)]⟩
        [("data_handling", ["r1"]), ("error_handling", ["r2"])]).metrics.overall_compliance =
        1 - ((2 : Nat) : Rat) / ((2 : Nat) : Rat) := rfl
    rw [h]
    norm_num

/-- C5 counterexample: the single call df.cache() on line 1
contributes an entry to the data_operations dict and to the
optimization-hints list at once, so one call occurrence feeds two of
the three categories. -/
theorem c5_counterexample :
    (analyzeTree cacheCallModule).data_operations =
      [("cache", (⟨1, []⟩ : Occurrence))] ∧
    (analyzeTree cacheCallModule).performance_metrics.optimization_hints =
      [(⟨"cache", 1, []⟩ : CheckEntry)] := by
  decide

/-- C5 amended: a call occurrence never feeds the quality-check list
together with another category, and it feeds both the data-operations
dict and the optimization-hints list exactly when its trailing name is
cache or persist; otherwise it lands in at most one category. -/
theorem c5_at_most_one_category_except_cache_persist
    (attr : String) (line : Nat) (args : List String) :
    ((processDataNode emptyAnalysis
        (.call (some attr) line args)).data_quality_checks ≠ [] →
      (processDataNode emptyAnalysis
        (.call (some attr) line args)).data_operations = [] ∧
      (processDataNode emptyAnalysis
        (.call (some attr) line args)).performance_metrics.optimization_hints = []) ∧
    ((processDataNode emptyAnalysis
        (.call (some attr) line args)).data_operations ≠ [] ∧
      (processDataNode emptyAnalysis
        (.call (some attr) line args)).performance_metrics.optimization_hints ≠ [] →
      attr = "cache" ∨ attr = "persist") := by
  constructor
  · intro hne
    rw [processDataNode_call_quality] at hne
    by_cases hq : attr ∈ qualityAttrs
    · rw [processDataNode_call_ops, processDataNode_call_hints]
      constructor
      · rw [if_neg (fun h2 => quality_dataOp_disjoint attr hq h2)]
      · rw [if_neg (fun h2 => quality_perf_disjoint attr hq h2)]
    · rw [if_neg hq] at hne
      exact absurd rfl hne
  · rintro ⟨h1, h2⟩
    rw [processDataNode_call_ops] at h1
    rw [processDataNode_call_hints] at h2
    by_cases hd : attr ∈ dataOpAttrs
    · by_cases hp : attr ∈ perfAttrs
      · exact dataOp_perf_inter attr hd hp
      · rw [if_neg hp] at h2
        exact absurd rfl h2
    · rw [if_neg hd] at h1
      exact absurd rfl h1

/-- C5 witness: at the concrete call cache on line 1 with no
arguments, both hypotheses of the amended theorem hold and its
conclusion follows. -/
theorem c5_witness :
    (processDataNode emptyAnalysis
      (.call (some "cache") 1 [])).data_operations ≠ [] ∧
    (processDataNode emptyAnalysis
      (.call (some "cache") 1 [])).performance_metrics.optimization_hints ≠ [] ∧
    (("cache" : String) = "cache" ∨ ("cache" : String) = "persist") :=
  ⟨by decide, by decide,
    (c5_at_most_one_category_except_cache_persist "cache" 1 []).2
      ⟨by decide, by decide⟩⟩

/-- C6 counterexample: a source text that ast.parse rejects (such as
def f followed by an unclosed parenthesis, modelled by the failing
parse stub) makes analyze_file return the error marker, not an
all-empty FeatureRecord. -/
theorem c6_counterexample :
    analyze_file "def f(" noParse = AnalyzeResult.error := by
  decide

/-- C6 amended: a source text that is empty after preprocessing
yields the record with all-empty collections and all-false flags and
no error marker; but a text that is non-empty after preprocessing and
fails to parse yields the error marker instead. -/
theorem c6_empty_ok_parse_failure_error (source_code : String)
    (parse : String → Option PyModule) :
    (pyStrip (preprocess_databricks_notebook source_code) = "" →
      analyze_file source_code parse = AnalyzeResult.ok emptyAnalysis) ∧
    (pyStrip (preprocess_databricks_notebook source_code) ≠ "" →
      parse (preprocess_databricks_notebook source_code) = Option.none →
      analyze_file source_code parse = AnalyzeResult.error) := by
  constructor
  · intro h
    unfold analyze_file
    dsimp only
    rw [if_pos h]
  · intro h hp
    unfold analyze_file
    dsimp only
    rw [if_neg h, hp]

/-- C6 witness: a markdown-only notebook cell is empty after
preprocessing and analyze_file returns the all-empty record on it. -/
theorem c6_witness :
    pyStrip (preprocess_databricks_notebook "# %% [markdown]\nsome notes") = "" ∧
    analyze_file "# %% [markdown]\nsome notes" noParse =
      AnalyzeResult.ok emptyAnalysis :=
  ⟨by decide,
    (c6_empty_ok_parse_failure_error "# %% [markdown]\nsome notes" noParse).1
      (by decide)⟩

/-- C7 counterexample: with two read calls on lines 1 and 2, the
data_operations dict holds a single entry for read-the later
occurrence-so not all occurrences of a kind appear. -/
theorem c7_counterexample :
    (analyzeTree twoReadsModule).data_operations =
      [("read", (⟨2, ["b"]⟩ : Occurrence))] := by
  decide

/-- C7 amended: dataOperations maps each data-operation kind to at
most one occurrence record (line number and arguments): exactly the
last occurrence of that kind in the tree walk, earlier ones being
overwritten; kinds that do not occur are absent. -/
theorem c7_last_occurrence_per_kind (tree : PyModule) (k : String) :
    dictLookup (analyzeTree tree).data_operations k = lastDataOp tree.walk k := by
  unfold analyzeTree
  dsimp only
  rw [dictLookup_foldl_process]
  exact optOr_none_right _

/-- C8: every summary counter of the aggregated codebase analysis
equals the corresponding deterministic sum over the included files
map: total_files is the map size, total_transformations and
total_data_operations are sums of per-file collection sizes, and each
per-pattern counter counts the files whose flag is true. -/
theorem c8_summary_deterministic_sums
    (results : List (String × AnalyzeResult)) :
    summaryMatchesFiles (code_parser_aggregate results) :=
  foldl_aggregate_invariant results initialCodebaseAnalysis
    ⟨rfl, rfl, rfl, rfl, rfl, rfl, rfl, rfl⟩

/-- C9: every record analyze_file returns (also the empty-input one)
has has_data_validation true exactly when the quality-checks list is
non-empty and has_performance_optimizations true exactly when the
optimization-hints list is non-empty. -/
theorem c9_flag_list_invariant (source_code : String)
    (parse : String → Option PyModule) (a : FileAnalysis)
    (h : analyze_file source_code parse = AnalyzeResult.ok a) :
    (a.patterns.has_data_validation = true ↔ a.data_quality_checks ≠ []) ∧
    (a.patterns.has_performance_optimizations = true ↔
      a.performance_metrics.optimization_hints ≠ []) := by
  unfold analyze_file at h
  dsimp only at h
  split at h
  · injection h with h2
    subst h2
    exact ⟨by decide, by decide⟩
  · split at h
    · injection h with h2
      subst h2
      exact analyzeTree_flags _
    · exact (AnalyzeResult.noConfusion h)

/-- C9 witness: the empty source is empty after preprocessing,
analyze_file returns the all-empty record on it, and the invariant
holds there. -/
theorem c9_witness :
    analyze_file "" noParse = AnalyzeResult.ok emptyAnalysis ∧
    ((emptyAnalysis.patterns.has_data_validation = true ↔
        emptyAnalysis.data_quality_checks ≠ []) ∧
      (emptyAnalysis.patterns.has_performance_optimizations = true ↔
        emptyAnalysis.performance_metrics.optimization_hints ≠ [])) :=
  ⟨by decide, c9_flag_list_invariant "" noParse emptyAnalysis (by decide)⟩

/-- C10: every record analyze_file returns has
has_data_quality_checks false: the flag is initialized false and no
code path updates it, even when the text contains quality-check
calls. -/
theorem c10_quality_flag_always_false (source_code : String)
    (parse : String → Option PyModule) (a : FileAnalysis)
    (h : analyze_file source_code parse = AnalyzeResult.ok a) :
    a.patterns.has_data_quality_checks = false := by
  unfold analyze_file at h
  dsimp only at h
  split at h
  · injection h with h2
    subst h2
    rfl
  · split at h
    · injection h with h2
      subst h2
      rfl
    · exact (AnalyzeResult.noConfusion h)

/-- C10 witness: on the source df.filter(x), whose record does carry
a quality-check entry, the flag is still false. -/
theorem c10_witness :
    analyze_file "df.filter(x)" filterParse =
      AnalyzeResult.ok (analyzeTree filterCallModule) ∧
    (analyzeTree filterCallModule).data_quality_checks ≠ [] ∧
    (analyzeTree filterCallModule).patterns.has_data_quality_checks = false :=
  ⟨by decide, by decide,
    c10_quality_flag_always_false "df.filter(x)" filterParse
      (analyzeTree filterCallModule) (by decide)⟩

end Tools
